import Mathlib

/-!
Shallow embedding of the datashape core type system
(src/datashape/coretypes.py) in Lean 4.

The Python module defines a tree of "Mono" type nodes (dimensions and
measures), a process-wide Type registry, constructor-time validation,
canonical string rendering, structural equality and hashing, and the
free-variable utility.  Python objects are embedded as values of the
inductive type `Mono` below (one constructor per concrete class of the
source; the attributes stored by each `__init__` become the constructor
fields).  Fallible constructors are embedded as functions returning
`Except PyErr Mono`, mirroring each `__init__` body.  Python `==` is
embedded as `pyEq` (it can raise, hence `Except`), and Python `hash()`
as `pyHash`, which returns the structured data the source feeds to the
interpreter hash (`HTree`); two nodes have equal interpreter hashes
exactly when their `HTree`s coincide, and unhashable nodes (classes
defining `__eq__` but no `__hash__`, under Python 3 semantics) raise.

Classes `Null` and `Implements` are omitted: the module never
instantiates `Null` (`na` aliases the class itself) and `Implements`
carries no behaviour beyond the inherited default.  The `py2help`
helpers `_inttypes`/`_strtypes` (not under src/) are the native
int/str types; they appear here simply as the `pyInt`/`pyStr`
constructors of `PyArg`.
-/

/-- Python exception kinds raised by the embedded code, with their
message text.  Formatting details such as `%r` of a whole object are
elided where the message does not depend on them. -/
inductive PyErr where
  | typeError (msg : String)
  | valueError (msg : String)
  | keyError (msg : String)
  | attributeError (msg : String)
  | indexError (msg : String)
  deriving DecidableEq, Repr

/-- Value of a `cls` class attribute: the module-level constants
DIMENSION = 1 and MEASURE = 2, or Python `None`
(only `IntegerConstant` sets `cls = None`). -/
inductive ClsVal where
  | pynone
  | dimension
  | measure
  deriving DecidableEq, Repr

/-- The Mono node tree.  One constructor per concrete class of
coretypes.py; each constructor stores what the class `__init__`
stores on `self`.  `string` keeps the canonicalized encoding (the
`self.encoding` attribute after the alias-table rewrite).
`dataShape` keeps its parameter list and the optional registered
name (`self.name`, normalized: a falsy name is stored as `none`). -/
inductive Mono where
  | integerConstant (i : Int)
  | stringConstant (s : String)
  | date
  | time (tz : Option String)
  | dateTime (tz : Option String)
  | units (unit : String) (tp : Mono)
  | bytes
  | string (fixlen : Option Int) (encoding : String)
  | ctype (name : String) (itemsize : Int) (alignment : Int)
  | fixed (val : Nat)
  | var
  | typeVar (symbol : String)
  | ellipsis (typevar : Option Mono)
  | dataShape (params : List Mono) (name : Option String)
  | option (ty : Mono)
  | function (params : List Mono)
  | record (fields : List (String × Mono))
  | tuple (dshapes : List Mono)
  | json

/-- The `cls` attribute of a node's class, or `none` when the class
has no such attribute (getattr would fall back to a default).
From the class bodies: Date/Time/DateTime/Units/Bytes/String/CType/
Record/Tuple/JSON set `cls = MEASURE`; Fixed/Var set
`cls = DIMENSION`; IntegerConstant sets `cls = None`; StringConstant,
TypeVar, Ellipsis, DataShape, Option and Function define no `cls`. -/
def Mono.clsAttr : Mono → Option ClsVal
  | .integerConstant _ => some .pynone
  | .stringConstant _ => none
  | .date => some .measure
  | .time _ => some .measure
  | .dateTime _ => some .measure
  | .units _ _ => some .measure
  | .bytes => some .measure
  | .string _ _ => some .measure
  | .ctype _ _ _ => some .measure
  | .fixed _ => some .dimension
  | .var => some .dimension
  | .typeVar _ => none
  | .ellipsis _ => none
  | .dataShape _ _ => none
  | .option _ => none
  | .function _ => none
  | .record _ => some .measure
  | .tuple _ => some .measure
  | .json => some .measure

/-- Embeds `getattr(m, 'cls', default)`. -/
def getattrCls (m : Mono) (default : ClsVal) : ClsVal :=
  match m.clsAttr with
  | some v => v
  | none => default

def Mono.isDataShape : Mono → Bool
  | .dataShape _ _ => true
  | _ => false

def Mono.isCType : Mono → Bool
  | .ctype _ _ _ => true
  | _ => false

def Mono.isIntegerConstant : Mono → Bool
  | .integerConstant _ => true
  | _ => false

def Mono.isStringConstant : Mono → Bool
  | .stringConstant _ => true
  | _ => false

def Mono.isRecord : Mono → Bool
  | .record _ => true
  | _ => false

/-- A raw Python value passed as a constructor or comparison argument:
`None`, a native int, a native str, or a Mono node. -/
inductive PyArg where
  | pyNone
  | pyInt (i : Int)
  | pyStr (s : String)
  | pyMono (m : Mono)

/-- The structured input the source feeds to the interpreter `hash`.
`int i` for hashing a native int, `str s` for a native str, `pynone`
for `None`, `varClassId` for `id(Var)` (the one identity-based hash,
a process constant distinct from every value hash), and `tup` for a
tuple whose elements are hashed recursively.  Python hash is a fixed
deterministic function of this data, so nodes with equal `HTree`s
have equal interpreter hashes and the source guarantees nothing for
distinct `HTree`s. -/
inductive HTree where
  | int (i : Int)
  | str (s : String)
  | pynone
  | varClassId
  | tup (l : List HTree)

mutual
/-- Structural Boolean equality on `HTree` (used only to decide
inequality of concrete hash inputs). -/
def HTree.beq : HTree → HTree → Bool
  | .int i, .int j => i == j
  | .str s, .str t => s == t
  | .pynone, .pynone => true
  | .varClassId, .varClassId => true
  | .tup l, .tup m => HTree.beqList l m
  | _, _ => false
def HTree.beqList : List HTree → List HTree → Bool
  | [], [] => true
  | x :: xs, y :: ys => HTree.beq x y && HTree.beqList xs ys
  | _, _ => false
end

theorem HTree.beq_refl (t : HTree) : HTree.beq t t = true := by
  induction t using HTree.rec (motive_2 := fun l => HTree.beqList l l = true) <;>
    simp_all [HTree.beq, HTree.beqList]

theorem HTree.ne_of_beq_false {a b : HTree} (h : HTree.beq a b = false) : a ≠ b := by
  intro he
  subst he
  rw [HTree.beq_refl a] at h
  cases h

/-! ## The Type registry

`Type._registry` is a Python dict from name to type instance.  It is
embedded as an association list in insertion order; assignment appends
and `dictGet` takes the latest binding, matching dict overwrite
semantics.  (Under Python 3 the `__metaclass__ = Type` attribute has
no effect, so the registry only ever holds explicitly registered
instances, never classes.) -/

abbrev Registry := List (String × Mono)

/-- Latest-binding lookup: embeds `d[name]` / `name in d` on a dict
represented as the chronological list of assignments. -/
def dictGet : List (String × Mono) → String → Option Mono
  | [], _ => none
  | (k, v) :: rest, key =>
    match dictGet rest key with
    | some v2 => some v2
    | none => if k = key then some v else none

/-- Embeds `Type.register(name, type)`: raises `TypeError` when the
name is already present ("Don't clobber existing types."), otherwise
adds the binding. -/
def Type_register (reg : Registry) (name : String) (type : Mono) : Except PyErr Registry :=
  if (dictGet reg name).isSome then
    .error (.typeError ("There is another type registered with name " ++ name))
  else
    .ok (reg ++ [(name, type)])

/-- Embeds `Type.lookup_type(name)`: plain dict indexing, raising
`KeyError` when absent. -/
def lookup_type (reg : Registry) (name : String) : Except PyErr Mono :=
  match dictGet reg name with
  | some t => .ok t
  | none => .error (.keyError name)

/-! ## Unit-type constructors -/

/-- Embeds `Fixed.__init__`: `operator.index` of a native int is the
int itself; negative values are rejected. -/
def Fixed_init (i : Int) : Except PyErr Mono :=
  if i < 0 then
    .error (.valueError "Fixed dimensions must be positive")
  else
    .ok (.fixed i.toNat)

/-- First character uppercase, as `symbol[0].isupper()` computes for
ASCII symbols (`'i0'[0].isupper()` is False, `'A'[0].isupper()` is
True; a digit is not uppercase). -/
def headUpper (s : String) : Bool :=
  match s.data with
  | [] => false
  | c :: _ => c.isUpper

/-- Embeds `TypeVar.__init__`: `symbol[0]` raises IndexError on an
empty string; a symbol whose first character is not uppercase raises
ValueError. -/
def TypeVar_init (symbol : String) : Except PyErr Mono :=
  match symbol.data with
  | [] => .error (.indexError "string index out of range")
  | c :: _ =>
    if c.isUpper then
      .ok (.typeVar symbol)
    else
      .error (.valueError ("TypeVar symbol \x27" ++ symbol ++ "\x27 does not begin with a capital"))

/-- Embeds the module-level `_canonical_string_encodings` alias table:
`none` when the encoding is not a key of the table. -/
def canonEnc : String → Option String
  | "A" => some "A"
  | "ascii" => some "A"
  | "U8" => some "U8"
  | "utf-8" => some "U8"
  | "utf_8" => some "U8"
  | "utf8" => some "U8"
  | "U16" => some "U16"
  | "utf-16" => some "U16"
  | "utf_16" => some "U16"
  | "utf16" => some "U16"
  | "U32" => some "U32"
  | "utf-32" => some "U32"
  | "utf_32" => some "U32"
  | "utf32" => some "U32"
  | _ => none

/-- A `String` constructor argument viewed through
`isinstance(x, _inttypes + (IntegerConstant,))`: the native int or the
`.val` of an `IntegerConstant`, else `none`. -/
def strArgInt : PyArg → Option Int
  | .pyInt i => some i
  | .pyMono (.integerConstant i) => some i
  | _ => none

/-- A `String` constructor argument viewed through
`isinstance(x, _strtypes + (StringConstant,))`: the native str or the
`.val` of a `StringConstant`, else `none`. -/
def strArgStr : PyArg → Option String
  | .pyStr s => some s
  | .pyMono (.stringConstant s) => some s
  | _ => none

/-- Embeds `String.__init__(fixlen=None, encoding=None)`.  The four
branches, in source order: `String()`, `String(fixlen)`,
`String('encoding')` (encoding passed positionally as the first
argument), and `String(fixlen, 'encoding')`; any other combination
(in particular a `None` fixlen with a non-`None` encoding) raises
ValueError.  The encoding is then validated against the alias table
and stored in canonical form. -/
def String_init (fixlen : PyArg) (encoding : PyArg) : Except PyErr Mono :=
  let parsed : Except PyErr (Option Int × String) :=
    match fixlen, encoding with
    | .pyNone, .pyNone => .ok (none, "U8")
    | _, _ =>
      match strArgInt fixlen, strArgStr fixlen, strArgStr encoding, encoding with
      | some n, _, _, .pyNone => .ok (some n, "U8")
      | _, some e, _, .pyNone => .ok (none, e)
      | some n, _, some e, _ => .ok (some n, e)
      | _, _, _, _ => .error (.valueError "Unexpected types to String constructor")
  match parsed with
  | .error e => .error e
  | .ok (fl, enc) =>
    match canonEnc enc with
    | none => .error (.valueError ("Unsupported string encoding \x27" ++ enc ++ "\x27"))
    | some c => .ok (.string fl c)

/-- Embeds `Time.__init__`: the tz argument is a string or None (the
string type check cannot fail on an `Option String`). -/
def Time_init (tz : Option String) : Except PyErr Mono :=
  .ok (.time tz)

/-- Embeds `DateTime.__init__`, as for `Time`. -/
def DateTime_init (tz : Option String) : Except PyErr Mono :=
  .ok (.dateTime tz)

/-! ## DataShape construction -/

/-- Embeds the parameter validation of `DataShape.__init__`: with no
parameters, ValueError (the message claims "2 or more" but the guard
is `len(parameters) > 0`, so a single parameter is accepted); the
last parameter must have `getattr(-, 'cls', MEASURE) == MEASURE` and
every earlier one `getattr(-, 'cls', DIMENSION) == DIMENSION`, else
TypeError. -/
def dsParamsCheck (ps : List Mono) : Except PyErr Unit :=
  match ps.getLast? with
  | none =>
    .error (.valueError "the data shape should be constructed from 2 or more parameters, only got 0")
  | some last =>
    if getattrCls last .measure = .measure then
      if ps.dropLast.all (fun d => getattrCls d .dimension == .dimension) then
        .ok ()
      else
        .error (.typeError "Only dimensions can appear before the last position of a datashape")
    else
      .error (.typeError "Only a measure can appear on the last position of a datashape")

/-- `DataShape(*parameters)` without a name keyword: validation, then
the node. -/
def dshapeOf (ps : List Mono) : Except PyErr Mono :=
  match dsParamsCheck ps with
  | .error e => .error e
  | .ok _ => .ok (.dataShape ps none)

/-- Embeds `DataShape.__init__` with the `name` keyword and registry
state.  A truthy name is stored and written directly into
`Type._registry` by `self.__metaclass__._registry[name] = self` —
a plain dict assignment that bypasses `Type.register` and its
collision check; a falsy name (absent or empty) leaves the registry
untouched. -/
def DataShape_init (ps : List Mono) (name : Option String) (reg : Registry) :
    Except PyErr (Mono × Registry) :=
  match dsParamsCheck ps with
  | .error e => .error e
  | .ok _ =>
    match name with
    | some n =>
      if n = "" then
        .ok (.dataShape ps none, reg)
      else
        .ok (.dataShape ps (some n), reg ++ [(n, .dataShape ps (some n))])
    | none => .ok (.dataShape ps none, reg)

/-- Embeds `DataShape.sigform`: replace the leading parameters by
`TypeVar('i0')`, `TypeVar('i1')`, ... and keep the last parameter. -/
def DataShape_sigform (ps : List Mono) : Except PyErr Mono := do
  let newparams ← (List.range (ps.length - 1)).mapM (fun n => TypeVar_init ("i" ++ toString n))
  match ps.getLast? with
  | some m => dshapeOf (newparams ++ [m])
  | none => .error (.indexError "tuple index out of range")

/-- `sigform()` on any Mono: `Mono.sigform` returns self, and
`DataShape` overrides it. -/
def Mono.sigform : Mono → Except PyErr Mono
  | .dataShape ps _ => DataShape_sigform ps
  | m => .ok m

/-! ## Record, Option, Units, CType -/

/-- Embeds the field coercion of `Record.__init__`:
`t if isinstance(t, DataShape) else DataShape(t)`, left to right. -/
def Record_coerce : List (String × Mono) → Except PyErr (List (String × Mono))
  | [] => .ok []
  | (n, t) :: rest => do
    let t2 ← if t.isDataShape then pure t else dshapeOf [t]
    let r ← Record_coerce rest
    pure ((n, t2) :: r)

/-- Embeds `Record.__init__(fields)`. -/
def Record_init (fields : List (String × Mono)) : Except PyErr Mono :=
  (Record_coerce fields).map .record

/-- Embeds `Option.__init__(ds)`: a one-element `DataShape` is
unwrapped; then `ds.cls` is read directly (AttributeError when the
class has no `cls`) and must equal MEASURE. -/
def Option_init (ds : Mono) : Except PyErr Mono :=
  let ds := match ds with
    | .dataShape [x] _ => x
    | other => other
  match ds.clsAttr with
  | none => .error (.attributeError "cls")
  | some v =>
    if v = .measure then
      .ok (.option ds)
    else
      .error (.typeError "Option only takes measure argument")

/-- The default `Units` value type, `DataShape(float64)`. -/
def float64DShape : Mono := .dataShape [.ctype "float64" 8 8] none

/-- Embeds `Units.__init__(unit, tp=None)`: `tp` defaults to
`DataShape(float64)` and must otherwise be a `DataShape`. -/
def Units_init (unit : String) (tp : Option Mono) : Except PyErr Mono :=
  match tp with
  | none => .ok (.units unit float64DShape)
  | some t =>
    if t.isDataShape then
      .ok (.units unit t)
    else
      .error (.valueError "tp parameter to units datashape must be a datashape type")

/-- Embeds `CType.__init__(name, itemsize, alignment)`: stores the
attributes and self-registers through `Type.register`, which raises
on a name collision. -/
def CType_init (reg : Registry) (name : String) (itemsize alignment : Int) :
    Except PyErr (Mono × Registry) := do
  let reg2 ← Type_register reg name (.ctype name itemsize alignment)
  pure (.ctype name itemsize alignment, reg2)

/-! ## Module-level registrations

The bottom of coretypes.py constructs the native scalar `CType`s
(each self-registers under its own name) and then registers the alias
names `complex64`, `complex128`, `intptr`, `uintptr`, `float`,
`double`, plus `bytes` and `string`.  Item sizes and alignments are
the LP64 values the `ctypes` calls produce on a 64-bit platform, and
`intptr`/`uintptr` alias `int64`/`uint64` accordingly
(`ctypes.sizeof(c_void_p) == 8`). -/

/-- Runs a `CType` construction just for its registry effect. -/
def regCType (reg : Registry) (name : String) (itemsize alignment : Int) :
    Except PyErr Registry :=
  (CType_init reg name itemsize alignment).map (·.2)

/-- The registry produced by importing the module, in source order. -/
def initRegistry : Except PyErr Registry := do
  let r ← regCType [] "bool" 1 1
  let r ← regCType r "char" 1 1
  let r ← regCType r "int8" 1 1
  let r ← regCType r "int16" 2 2
  let r ← regCType r "int32" 4 4
  let r ← regCType r "int64" 8 8
  let r ← regCType r "uint8" 1 1
  let r ← regCType r "uint16" 2 2
  let r ← regCType r "uint32" 4 4
  let r ← regCType r "uint64" 8 8
  let r ← regCType r "float16" 2 2
  let r ← regCType r "float32" 4 4
  let r ← regCType r "float64" 8 8
  let r ← regCType r "complex[float32]" 8 4
  let r ← regCType r "complex[float64]" 16 8
  let r ← Type_register r "complex64" (.ctype "complex[float32]" 8 4)
  let r ← Type_register r "complex128" (.ctype "complex[float64]" 16 8)
  let r ← Type_register r "intptr" (.ctype "int64" 8 8)
  let r ← Type_register r "uintptr" (.ctype "uint64" 8 8)
  let r ← regCType r "void" 0 1
  let r ← regCType r "object" 8 8
  let r ← Type_register r "float" (.ctype "float32" 4 4)
  let r ← Type_register r "double" (.ctype "float64" 8 8)
  let r ← Type_register r "bytes" .bytes
  let r ← Type_register r "string" (.string none "U8")
  pure r

/-! ## Canonical string rendering

Embeds each `__str__` method.  Literal braces of the record rendering
are written with character escapes. -/

mutual
/-- Embeds `__str__` per variant.  For `Units`, the source compares
`self.tp == DataShape(float64)`; constructed `Units` values always
hold a `DataShape`, for which that comparison cannot raise, so the
short form is used exactly when the stored tree is the default one.
A `Function` value always has at least one parameter in the source
(argument types then return type). -/
def Mono.str : Mono → String
  | .integerConstant i => toString i
  | .stringConstant s => "\x27" ++ s ++ "\x27"
  | .date => "date"
  | .time none => "time"
  | .time (some tz) => "time[tz=\x27" ++ tz ++ "\x27]"
  | .dateTime none => "datetime"
  | .dateTime (some tz) => "datetime[tz=\x27" ++ tz ++ "\x27]"
  | .units u tp =>
    match tp with
    | .dataShape [.ctype "float64" 8 8] none => "units[\x27" ++ u ++ "\x27]"
    | other => "units[\x27" ++ u ++ "\x27, " ++ Mono.str other ++ "]"
  | .bytes => "bytes"
  | .string none "U8" => "string"
  | .string (some n) "U8" => "string[" ++ toString n ++ "]"
  | .string none e => "string[\x27" ++ e ++ "\x27]"
  | .string (some n) e => "string[" ++ toString n ++ ", \x27" ++ e ++ "\x27]"
  | .ctype n _ _ => n
  | .fixed v => toString v
  | .var => "var"
  | .typeVar s => s
  | .ellipsis none => "..."
  | .ellipsis (some tv) => Mono.str tv ++ "..."
  | .dataShape ps name =>
    match name with
    | some n => n
    | none => String.intercalate " * " (Mono.strList ps)
  | .option t => "option[" ++ Mono.str t ++ "]"
  | .function ps =>
    let ss := Mono.strList ps
    match ss.getLast? with
    | some ret => "(" ++ String.intercalate ", " ss.dropLast ++ ") -> " ++ ret
    | none => "() -> "
  | .record f => "\x7b " ++ String.intercalate ", " (Mono.strFields f) ++ " \x7d"
  | .tuple ds => "(" ++ String.intercalate ", " (Mono.strList ds) ++ ")"
  | .json => "json"
def Mono.strList : List Mono → List String
  | [] => []
  | x :: xs => Mono.str x :: Mono.strList xs
/-- One `"name : type"` item per field, embeds `record_string`. -/
def Mono.strFields : List (String × Mono) → List String
  | [] => []
  | (k, v) :: rest => (k ++ " : " ++ Mono.str v) :: Mono.strFields rest
end

/-! ## Free type variables -/

mutual
/-- Embeds the module-level `free(ds)`.  A `TypeVar` returns itself;
a composite Mono (a `Mono` that is not a `Unit` subclass: Ellipsis,
DataShape, Option, Function, Record, Tuple, JSON) recurses into each
element of its `parameters` tuple; anything else returns `[]`.
Crucially, `Record.parameters` is the 1-tuple holding the plain
tuple of field pairs and `Tuple.parameters` the 1-tuple holding the
list of dshapes: `free` applied to those plain containers (not Mono
instances) returns `[]`, so nothing under a Record or Tuple is
visited.  `Units` is a `Unit` subclass, so it also returns `[]`. -/
def free : Mono → List Mono
  | .typeVar s => [.typeVar s]
  | .ellipsis none => []
  | .ellipsis (some tv) => free tv
  | .dataShape ps _ => freeList ps
  | .option t => free t
  | .function ps => freeList ps
  | .record _ => []
  | .tuple _ => []
  | .json => []
  | _ => []
def freeList : List Mono → List Mono
  | [] => []
  | x :: xs => free x ++ freeList xs
end

/-! ## Python equality

Embeds the `__eq__` methods.  Between two Mono operands, Python
dispatches to the left operand's `__eq__`; the embedded `pyEq`
returns `.ok` of the Boolean result, or `.error` when the method
raises (`IntegerConstant` and `StringConstant` raise on any operand
that is neither the corresponding native value nor the same wrapped
kind).  Tuple comparison (`DataShape.parameters`,
`Function.parameters`, `Tuple.__dshapes`, `Ellipsis.parameters`)
compares element pairs left to right with `==`, stopping at the
first raise or mismatch; dict comparison (`Record.__fdict`) compares
sizes, then for each key of the left dict requires the key in the
right dict and `==` of the values. -/

/-- Embeds `m == None` (reflected: `None == m` gives the same): the
raising variants raise, everything else is `False`. -/
def pyEqNone : Mono → Except PyErr Bool
  | .integerConstant _ => .error (.typeError "Cannot compare type IntegerConstant to type NoneType")
  | .stringConstant _ => .error (.typeError "Cannot compare type StringConstant to type NoneType")
  | .dataShape _ _ => .error (.typeError "Cannot compare non-datashape type NoneType to datashape")
  | _ => .ok false

/-- First-occurrence deduplication of a key list (accumulator holds
the keys already seen). -/
def dedupKeysAux : List String → List String → List String
  | [], _ => []
  | k :: rest, seen =>
    if k ∈ seen then dedupKeysAux rest seen else k :: dedupKeysAux rest (k :: seen)

/-- Number of distinct keys: `len(dict(fields))`. -/
def keyCount (l : List (String × Mono)) : Nat :=
  (dedupKeysAux (l.map Prod.fst) []).length

/-- A dict value is structurally smaller than the field list. -/
theorem sizeOf_dictGet {f : List (String × Mono)} {k : String} {v : Mono}
    (h : dictGet f k = some v) : sizeOf v < sizeOf f := by
  induction f with
  | nil => simp [dictGet] at h
  | cons hd tl ih =>
    obtain ⟨k2, v2⟩ := hd
    simp only [dictGet] at h
    cases hget : dictGet tl k with
    | some v3 =>
      rw [hget] at h
      injection h with h
      subst h
      have h2 := ih hget
      simp only [List.cons.sizeOf_spec, Prod.mk.sizeOf_spec]
      omega
    | none =>
      rw [hget] at h
      by_cases hk : k2 = k
      · simp only [hk, if_pos] at h
        injection h with h
        subst h
        simp only [List.cons.sizeOf_spec, Prod.mk.sizeOf_spec]
        omega
      · simp [hk] at h

mutual
/-- Python `==` between two Mono nodes. Same-class pairs compare per
the class's `__eq__`; an `IntegerConstant` or `StringConstant` left
operand raises against any other Mono; every remaining pair is
`False` (this includes `DataShape == <other Mono>`, which the source
returns `False` for explicitly). `DataShape` equality ignores the
registered name (only `parameters` are compared); `CType` equality
compares names only. -/
def pyEq : Mono → Mono → Except PyErr Bool
  | .integerConstant i, .integerConstant j => .ok (i == j)
  | .integerConstant _, _ =>
    .error (.typeError "Cannot compare type IntegerConstant to this type")
  | .stringConstant s, .stringConstant t => .ok (s == t)
  | .stringConstant _, _ =>
    .error (.typeError "Cannot compare type StringConstant to this type")
  | .date, .date => .ok true
  | .time tz, .time tz2 => .ok (tz == tz2)
  | .dateTime tz, .dateTime tz2 => .ok (tz == tz2)
  | .units u tp, .units u2 tp2 => if u == u2 then pyEq tp tp2 else .ok false
  | .bytes, .bytes => .ok true
  | .string fl e, .string fl2 e2 => .ok (fl == fl2 && e == e2)
  | .ctype n _ _, .ctype n2 _ _ => .ok (n == n2)
  | .fixed v, .fixed w => .ok (v == w)
  | .var, .var => .ok true
  | .typeVar s, .typeVar s2 => .ok (s == s2)
  | .ellipsis tv, .ellipsis tv2 => pyEqOpt tv tv2
  | .dataShape ps _, .dataShape ps2 _ => pyEqList ps ps2
  | .option t, .option t2 => pyEq t t2
  | .function ps, .function ps2 => pyEqList ps ps2
  | .record f, .record f2 =>
    if keyCount f = keyCount f2 then pyEqDict f f f2 else .ok false
  | .tuple ds, .tuple ds2 => pyEqList ds ds2
  | .json, .json => .ok true
  | _, _ => .ok false
termination_by a b => (sizeOf a + sizeOf b, 0)
/-- Python tuple/list `==`: pairwise from the left, propagating a
raise, `False` on the first mismatch or on a length difference. -/
def pyEqList : List Mono → List Mono → Except PyErr Bool
  | [], [] => .ok true
  | x :: xs, y :: ys =>
    match pyEq x y with
    | .error e => .error e
    | .ok true => pyEqList xs ys
    | .ok false => .ok false
  | _, _ => .ok false
termination_by l1 l2 => (sizeOf l1 + sizeOf l2, 0)
/-- Comparison of the 1-tuples `(typevar,)` held by `Ellipsis`. -/
def pyEqOpt : Option Mono → Option Mono → Except PyErr Bool
  | some a, some b => pyEq a b
  | none, none => .ok true
  | some a, none => pyEqNone a
  | none, some b => pyEqNone b
termination_by o1 o2 => (sizeOf o1 + sizeOf o2, 0)
/-- Dict value comparison: iterate the keys of the left dict (`rest`
walks the left field list; the compared value is the dict's, i.e.
the latest binding in `full`), requiring the key in `f2` with an
`==`-equal value. -/
def pyEqDict (full : List (String × Mono)) :
    List (String × Mono) → List (String × Mono) → Except PyErr Bool
  | [], _ => .ok true
  | (k, _) :: rest, f2 =>
    match h1 : dictGet full k, h2 : dictGet f2 k with
    | some v1, some v2 =>
      match pyEq v1 v2 with
      | .error e => .error e
      | .ok true => pyEqDict full rest f2
      | .ok false => .ok false
    | some _, none => .ok false
    | none, _ => .ok true
termination_by rest f2 => (sizeOf full + sizeOf f2, sizeOf rest)
decreasing_by
  · have a1 := sizeOf_dictGet h1
    have a2 := sizeOf_dictGet h2
    apply Prod.Lex.left
    omega
  · apply Prod.Lex.right
    simp only [List.cons.sizeOf_spec, Prod.mk.sizeOf_spec]
    omega
end

/-! ## Python hashing -/

mutual
/-- Embeds `hash()` on a Mono node, producing the structured hash
input (`HTree`) each `__hash__` method feeds to the interpreter.
`DataShape` hashes the tuple of its parameters, `Record` its ordered
field-pair tuple `self.__fields`, `String` the pair
`(fixlen, encoding)`, `Option` the pair `('option', ty)`,
`Function` the tuple `('Function',) + parameters`, `Ellipsis` the
pair `(typevar, '...')`, `Tuple` its dshape tuple, `CType` its name,
`Fixed`/`IntegerConstant` their integer value, `TypeVar`/
`StringConstant` their string, `Var` the constant `id(Var)`.
`Date`, `Time`, `DateTime`, `Units`, `Bytes` and `JSON` define
`__eq__` without `__hash__` and are therefore unhashable under
Python 3: hashing raises TypeError. -/
def pyHash : Mono → Except PyErr HTree
  | .integerConstant i => .ok (.int i)
  | .stringConstant s => .ok (.str s)
  | .date => .error (.typeError "unhashable type: Date")
  | .time _ => .error (.typeError "unhashable type: Time")
  | .dateTime _ => .error (.typeError "unhashable type: DateTime")
  | .units _ _ => .error (.typeError "unhashable type: Units")
  | .bytes => .error (.typeError "unhashable type: Bytes")
  | .string fl e =>
    .ok (.tup [match fl with | none => .pynone | some n => .int n, .str e])
  | .ctype n _ _ => .ok (.str n)
  | .fixed v => .ok (.int v)
  | .var => .ok .varClassId
  | .typeVar s => .ok (.str s)
  | .ellipsis tv =>
    match pyHashOpt tv with
    | .error e => .error e
    | .ok h => .ok (.tup [h, .str "..."])
  | .dataShape ps _ =>
    match pyHashList ps with
    | .error e => .error e
    | .ok l => .ok (.tup l)
  | .option t =>
    match pyHash t with
    | .error e => .error e
    | .ok h => .ok (.tup [.str "option", h])
  | .function ps =>
    match pyHashList ps with
    | .error e => .error e
    | .ok l => .ok (.tup (.str "Function" :: l))
  | .record f =>
    match pyHashFields f with
    | .error e => .error e
    | .ok l => .ok (.tup l)
  | .tuple ds =>
    match pyHashList ds with
    | .error e => .error e
    | .ok l => .ok (.tup l)
  | .json => .error (.typeError "unhashable type: JSON")
/-- Tuple hashing: element hashes in order, first raise propagates. -/
def pyHashList : List Mono → Except PyErr (List HTree)
  | [] => .ok []
  | x :: xs =>
    match pyHash x with
    | .error e => .error e
    | .ok h =>
      match pyHashList xs with
      | .error e => .error e
      | .ok l => .ok (h :: l)
/-- Hashing of the `(name, DataShape)` field pairs of a Record. -/
def pyHashFields : List (String × Mono) → Except PyErr (List HTree)
  | [] => .ok []
  | (k, v) :: rest =>
    match pyHash v with
    | .error e => .error e
    | .ok h =>
      match pyHashFields rest with
      | .error e => .error e
      | .ok l => .ok (.tup [.str k, h] :: l)
/-- Hash of the optional typevar slot of an `Ellipsis`. -/
def pyHashOpt : Option Mono → Except PyErr HTree
  | none => .ok .pynone
  | some t => pyHash t
end

/-! ## Record-free nodes and well-formed nodes -/

mutual
/-- True when no `Record` occurs anywhere in the tree. -/
def recordFree : Mono → Bool
  | .record _ => false
  | .dataShape ps _ => recordFreeList ps
  | .function ps => recordFreeList ps
  | .tuple ds => recordFreeList ds
  | .option t => recordFree t
  | .units _ tp => recordFree tp
  | .ellipsis none => true
  | .ellipsis (some tv) => recordFree tv
  | _ => true
def recordFreeList : List Mono → Bool
  | [] => true
  | x :: xs => recordFree x && recordFreeList xs
end

/-- The validity checks of `DataShape.__init__` as a Boolean: at
least one parameter, the last classifying as MEASURE, the earlier
ones as DIMENSION (each via getattr with defaults). -/
def dsOk (ps : List Mono) : Bool :=
  match ps.getLast? with
  | none => false
  | some last =>
    getattrCls last .measure == .measure &&
      ps.dropLast.all (fun d => getattrCls d .dimension == .dimension)

mutual
/-- Constructor-established invariants: `wf m` holds exactly for the
trees the embedded constructors can produce.  A `typeVar` has an
uppercase initial; a `string` carries a canonical encoding; a
`dataShape` has validated parameters and a non-empty name if any; a
`record` holds `DataShape`-coerced field types; an `option` holds a
MEASURE-classified node; a `units` holds a `DataShape` value type. -/
def wf : Mono → Bool
  | .integerConstant _ => true
  | .stringConstant _ => true
  | .date => true
  | .time _ => true
  | .dateTime _ => true
  | .units _ tp => tp.isDataShape && wf tp
  | .bytes => true
  | .string _ e => canonEnc e == some e
  | .ctype _ _ _ => true
  | .fixed _ => true
  | .var => true
  | .typeVar s => headUpper s
  | .ellipsis none => true
  | .ellipsis (some tv) => wf tv
  | .dataShape ps name => dsOk ps && name != some "" && wfList ps
  | .option t => (t.clsAttr == some .measure) && wf t
  | .function ps => wfList ps
  | .record f => wfFields f
  | .tuple ds => wfList ds
  | .json => true
def wfList : List Mono → Bool
  | [] => true
  | x :: xs => wf x && wfList xs
def wfFields : List (String × Mono) → Bool
  | [] => true
  | (_, t) :: rest => t.isDataShape && wf t && wfFields rest
end

/-! ## Reconstruction from parameters -/

/-- Drops the registered name of a top-level `DataShape` (the name is
not part of `parameters`, so reconstruction cannot restore it). -/
def stripName : Mono → Mono
  | .dataShape ps _ => .dataShape ps none
  | m => m

/-- Embeds `type(t)(*t.parameters)` for each variant: the variant's
constructor applied to the node's own ordered parameter tuple.
`CType.parameters` is the 1-tuple `(name,)` while `CType.__init__`
requires `(name, itemsize, alignment)`, so the call raises TypeError
before the body runs (and would collide in the registry even with
the right arity).  For `String`, `parameters` spells the encoding as
originally given; it canonicalizes to the stored form either way, so
the stored canonical spelling is used here. -/
def reconstruct : Mono → Except PyErr Mono
  | .integerConstant i => .ok (.integerConstant i)
  | .stringConstant s => .ok (.stringConstant s)
  | .date => .ok .date
  | .time tz => Time_init tz
  | .dateTime tz => DateTime_init tz
  | .units u tp => Units_init u (some tp)
  | .bytes => .ok .bytes
  | .string none e => String_init (.pyStr e) .pyNone
  | .string (some n) e => String_init (.pyInt n) (.pyStr e)
  | .ctype _ _ _ =>
    .error (.typeError "CType constructor requires name, itemsize and alignment arguments")
  | .fixed v => Fixed_init v
  | .var => .ok .var
  | .typeVar s => TypeVar_init s
  | .ellipsis tv => .ok (.ellipsis tv)
  | .dataShape ps _ => dshapeOf ps
  | .option t => Option_init t
  | .function ps => .ok (.function ps)
  | .record f => Record_init f
  | .tuple ds => .ok (.tuple ds)
  | .json => .ok .json

/-! ## Helper lemmas -/

/-- Simultaneous induction over the nested `Mono` tree, with motives
for the option, list and field-list layers, stated positionally. -/
theorem Mono.inductionAll
    (P : Mono → Prop) (O : Option Mono → Prop) (Q : List Mono → Prop)
    (R : List (String × Mono) → Prop) (S : String × Mono → Prop)
    (h1 : ∀ i, P (.integerConstant i))
    (h2 : ∀ s, P (.stringConstant s))
    (h3 : P .date)
    (h4 : ∀ tz, P (.time tz))
    (h5 : ∀ tz, P (.dateTime tz))
    (h6 : ∀ u tp, P tp → P (.units u tp))
    (h7 : P .bytes)
    (h8 : ∀ fl e, P (.string fl e))
    (h9 : ∀ n sz al, P (.ctype n sz al))
    (h10 : ∀ v, P (.fixed v))
    (h11 : P .var)
    (h12 : ∀ s, P (.typeVar s))
    (h13 : ∀ tv, O tv → P (.ellipsis tv))
    (h14 : ∀ ps nm, Q ps → P (.dataShape ps nm))
    (h15 : ∀ t, P t → P (.option t))
    (h16 : ∀ ps, Q ps → P (.function ps))
    (h17 : ∀ f, R f → P (.record f))
    (h18 : ∀ ds, Q ds → P (.tuple ds))
    (h19 : P .json)
    (h20 : O none)
    (h21 : ∀ v, P v → O (some v))
    (h22 : Q [])
    (h23 : ∀ x xs, P x → Q xs → Q (x :: xs))
    (h24 : R [])
    (h25 : ∀ p ps, S p → R ps → R (p :: ps))
    (h26 : ∀ k v, P v → S (k, v))
    (m : Mono) : P m :=
  @Mono.rec P O Q R S h1 h2 h3 h4 h5 h6 h7 h8 h9 h10 h11 h12 h13 h14 h15
    h16 h17 h18 h19 h20 h21 h22 h23 h24 h25 h26 m

/-- A successful dict lookup returns the value of some stored pair. -/
theorem dictGet_mem {f : List (String × Mono)} {k : String} {v : Mono}
    (h : dictGet f k = some v) : (k, v) ∈ f := by
  induction f with
  | nil => simp [dictGet] at h
  | cons hd tl ih =>
    obtain ⟨k2, v2⟩ := hd
    simp only [dictGet] at h
    cases hget : dictGet tl k with
    | some v3 =>
      rw [hget] at h
      injection h with h
      subst h
      exact List.mem_cons_of_mem _ (ih hget)
    | none =>
      rw [hget] at h
      by_cases hk : k2 = k
      · simp only [hk, if_pos] at h
        injection h with h
        subst h
        subst hk
        exact List.mem_cons_self _ _
      · simp [hk] at h

/-- A stored key is always found by the dict lookup. -/
theorem dictGet_isSome_of_mem {f : List (String × Mono)} {k : String} {v : Mono}
    (h : (k, v) ∈ f) : (dictGet f k).isSome := by
  induction f with
  | nil => simp at h
  | cons hd tl ih =>
    obtain ⟨k2, v2⟩ := hd
    rcases List.mem_cons.mp h with h2 | h2
    · injection h2 with ha hb
      subst ha
      simp only [dictGet]
      cases hget : dictGet tl k <;> simp
    · have := ih h2
      simp only [dictGet]
      cases hget : dictGet tl k with
      | some v3 => simp
      | none => rw [hget] at this; simp at this

/-- `pyEqNone` never answers `True`: the source either raises or
returns `False` when a node is compared with `None`. -/
theorem pyEqNone_ne_true (t : Mono) : pyEqNone t ≠ .ok true := by
  cases t <;> simp [pyEqNone]

set_option maxHeartbeats 2000000 in
/-- Dict self-comparison succeeds when every stored value compares
equal to itself. -/
theorem pyEqDict_self (f : List (String × Mono))
    (H : ∀ p ∈ f, pyEq p.2 p.2 = .ok true) :
    ∀ rest, (∀ p ∈ rest, p ∈ f) → pyEqDict f rest f = .ok true := by
  intro rest
  induction rest with
  | nil => intro _; simp [pyEqDict]
  | cons hd tl ih =>
    intro hsub
    obtain ⟨k, v⟩ := hd
    have hmem : (k, v) ∈ f := hsub _ (List.mem_cons_self _ _)
    have hsome := dictGet_isSome_of_mem hmem
    obtain ⟨w, hw⟩ := Option.isSome_iff_exists.mp hsome
    have hweq : pyEq w w = .ok true := H _ (dictGet_mem hw)
    rw [pyEqDict, hw]
    simp only [hweq]
    exact ih (fun p hp => hsub p (List.mem_cons_of_mem _ hp))

set_option maxHeartbeats 4000000 in
/-- Every Mono compares `==`-equal to itself (Python never raises on
a same-class comparison and all the `__eq__` bodies are reflexive). -/
theorem pyEq_refl (m : Mono) : pyEq m m = .ok true := by
  refine Mono.inductionAll
    (fun m => pyEq m m = .ok true)
    (fun tv => pyEqOpt tv tv = .ok true)
    (fun l => pyEqList l l = .ok true)
    (fun f => ∀ p ∈ f, pyEq p.2 p.2 = .ok true)
    (fun p => pyEq p.2 p.2 = .ok true)
    ?_ ?_ ?_ ?_ ?_ ?_ ?_ ?_ ?_ ?_ ?_ ?_ ?_ ?_ ?_ ?_ ?_ ?_ ?_ ?_ ?_ ?_ ?_ ?_ ?_ ?_ m
  case _ => intro i; simp [pyEq]
  case _ => intro s; simp [pyEq]
  case _ => simp [pyEq]
  case _ => intro tz; simp [pyEq]
  case _ => intro tz; simp [pyEq]
  case _ => intro u tp ih; simp [pyEq, ih]
  case _ => simp [pyEq]
  case _ => intro fl e; simp [pyEq]
  case _ => intro n sz al; simp [pyEq]
  case _ => intro v; simp [pyEq]
  case _ => simp [pyEq]
  case _ => intro s; simp [pyEq]
  case _ => intro tv ih; simpa [pyEq] using ih
  case _ => intro ps nm ih; simpa [pyEq] using ih
  case _ => intro t ih; simpa [pyEq] using ih
  case _ => intro ps ih; simpa [pyEq] using ih
  case _ =>
    intro f ih
    rw [pyEq]
    simp only [if_pos rfl]
    exact pyEqDict_self f ih f (fun p hp => hp)
  case _ => intro ds ih; simpa [pyEq] using ih
  case _ => simp [pyEq]
  case _ => simp [pyEqOpt]
  case _ => intro v ih; simpa [pyEqOpt] using ih
  case _ => simp [pyEqList]
  case _ => intro x xs ihx ihxs; simp [pyEqList, ihx, ihxs]
  case _ => intro p hp; simp at hp
  case _ =>
    intro p ps ihp ihps q hq
    rcases List.mem_cons.mp hq with h | h
    · subst h; exact ihp
    · exact ihps q h
  case _ => intro k v ih; exact ih

/-- Tuple self-comparison. -/
theorem pyEqList_refl (l : List Mono) : pyEqList l l = .ok true := by
  induction l with
  | nil => simp [pyEqList]
  | cons x xs ih => simp [pyEqList, pyEq_refl, ih]

/-- Helper for stating record-freeness of the `Ellipsis` slot. -/
def recordFreeOpt : Option Mono → Bool
  | none => true
  | some t => recordFree t

set_option maxHeartbeats 4000000 in
/-- On record-free trees, `==`-equality implies equal hash inputs:
every `__hash__` hashes data determined by what the corresponding
`__eq__` compares (or both sides are equally unhashable).  `Record`
is the exception excluded here: its `__eq__` compares the field dict
while its `__hash__` hashes the ordered field tuple. -/
theorem pyEq_hash_congr (x : Mono) :
    ∀ y, recordFree x = true → recordFree y = true →
      pyEq x y = .ok true → pyHash x = pyHash y := by
  refine Mono.inductionAll
    (fun x => ∀ y, recordFree x = true → recordFree y = true →
      pyEq x y = .ok true → pyHash x = pyHash y)
    (fun tv => ∀ tv2, recordFreeOpt tv = true → recordFreeOpt tv2 = true →
      pyEqOpt tv tv2 = .ok true → pyHashOpt tv = pyHashOpt tv2)
    (fun l => ∀ ys, recordFreeList l = true → recordFreeList ys = true →
      pyEqList l ys = .ok true → pyHashList l = pyHashList ys)
    (fun _ => True)
    (fun _ => True)
    ?_ ?_ ?_ ?_ ?_ ?_ ?_ ?_ ?_ ?_ ?_ ?_ ?_ ?_ ?_ ?_ ?_ ?_ ?_ ?_ ?_ ?_ ?_ ?_ ?_ ?_ x
  case _ => intro i y hx hy h; cases y <;> simp_all [pyEq, pyHash]
  case _ => intro s y hx hy h; cases y <;> simp_all [pyEq, pyHash]
  case _ => intro y hx hy h; cases y <;> simp_all [pyEq, pyHash]
  case _ => intro tz y hx hy h; cases y <;> simp_all [pyEq, pyHash]
  case _ => intro tz y hx hy h; cases y <;> simp_all [pyEq, pyHash]
  case _ => intro u tp ih y hx hy h; cases y <;> simp_all [pyEq, pyHash]
  case _ => intro y hx hy h; cases y <;> simp_all [pyEq, pyHash]
  case _ => intro fl e y hx hy h; cases y <;> simp_all [pyEq, pyHash]
  case _ => intro n sz al y hx hy h; cases y <;> simp_all [pyEq, pyHash]
  case _ => intro v y hx hy h; cases y <;> simp_all [pyEq, pyHash]
  case _ => intro y hx hy h; cases y <;> simp_all [pyEq, pyHash]
  case _ => intro s y hx hy h; cases y <;> simp_all [pyEq, pyHash]
  case _ =>
    intro tv ihO y hx hy h
    cases y <;> simp only [pyEq] at h <;> try (exact absurd h (by simp))
    rename_i tv2
    have hx2 : recordFreeOpt tv = true := by
      cases tv <;> simpa [recordFreeOpt, recordFree] using hx
    have hy2 : recordFreeOpt tv2 = true := by
      cases tv2 <;> simpa [recordFreeOpt, recordFree] using hy
    have ho := ihO tv2 hx2 hy2 h
    simp [pyHash, ho]
  case _ =>
    intro ps nm ihQ y hx hy h
    cases y <;> simp only [pyEq] at h <;> try (exact absurd h (by simp))
    rename_i ps2 nm2
    have hx2 : recordFreeList ps = true := by simpa [recordFree] using hx
    have hy2 : recordFreeList ps2 = true := by simpa [recordFree] using hy
    have hl := ihQ ps2 hx2 hy2 h
    simp [pyHash, hl]
  case _ =>
    intro t ihP y hx hy h
    cases y <;> simp only [pyEq] at h <;> try (exact absurd h (by simp))
    rename_i t2
    have hx2 : recordFree t = true := by simpa [recordFree] using hx
    have hy2 : recordFree t2 = true := by simpa [recordFree] using hy
    have ht := ihP t2 hx2 hy2 h
    simp [pyHash, ht]
  case _ =>
    intro ps ihQ y hx hy h
    cases y <;> simp only [pyEq] at h <;> try (exact absurd h (by simp))
    rename_i ps2
    have hx2 : recordFreeList ps = true := by simpa [recordFree] using hx
    have hy2 : recordFreeList ps2 = true := by simpa [recordFree] using hy
    have hl := ihQ ps2 hx2 hy2 h
    simp [pyHash, hl]
  case _ => intro f ihR y hx hy h; simp [recordFree] at hx
  case _ =>
    intro ds ihQ y hx hy h
    cases y <;> simp only [pyEq] at h <;> try (exact absurd h (by simp))
    rename_i ds2
    have hx2 : recordFreeList ds = true := by simpa [recordFree] using hx
    have hy2 : recordFreeList ds2 = true := by simpa [recordFree] using hy
    have hl := ihQ ds2 hx2 hy2 h
    simp [pyHash, hl]
  case _ => intro y hx hy h; cases y <;> simp_all [pyEq, pyHash]
  case _ =>
    intro tv2 _ _ h
    cases tv2 with
    | none => rfl
    | some t =>
      simp only [pyEqOpt] at h
      exact absurd h (pyEqNone_ne_true t)
  case _ =>
    intro v ihP tv2 h1 h2 h
    cases tv2 with
    | none =>
      simp only [pyEqOpt] at h
      exact absurd h (pyEqNone_ne_true v)
    | some t2 =>
      simp only [pyEqOpt] at h
      have hv := ihP t2 (by simpa [recordFreeOpt] using h1)
        (by simpa [recordFreeOpt] using h2) h
      simp [pyHashOpt, hv]
  case _ =>
    intro ys _ _ h
    cases ys with
    | nil => rfl
    | cons y ys2 => simp [pyEqList] at h
  case _ =>
    intro z zs ihP ihQ ys h1 h2 h
    cases ys with
    | nil => simp [pyEqList] at h
    | cons y ys2 =>
      have h1a : recordFree z = true ∧ recordFreeList zs = true := by
        simpa [recordFreeList, Bool.and_eq_true] using h1
      have h2a : recordFree y = true ∧ recordFreeList ys2 = true := by
        simpa [recordFreeList, Bool.and_eq_true] using h2
      rw [pyEqList] at h
      cases hpe : pyEq z y with
      | error e => rw [hpe] at h; simp at h
      | ok b =>
        rw [hpe] at h
        cases b with
        | false => simp at h
        | true =>
          have hh := ihP y h1a.1 h2a.1 hpe
          have ht := ihQ ys2 h1a.2 h2a.2 h
          simp [pyHashList, hh, ht]
  case _ => trivial
  case _ => intro p ps hS hR; trivial
  case _ => intro k v ih; trivial

/-- Embeds `IntegerConstant.__eq__(other)` with an arbitrary operand:
equal-by-value against a native int or another `IntegerConstant`,
TypeError against anything else. -/
def IntegerConstant_eq (i : Int) : PyArg → Except PyErr Bool
  | .pyInt j => .ok (i == j)
  | .pyMono (.integerConstant j) => .ok (i == j)
  | _ => .error (.typeError "Cannot compare type IntegerConstant to this type")

/-- Embeds `StringConstant.__eq__(other)` with an arbitrary operand. -/
def StringConstant_eq (s : String) : PyArg → Except PyErr Bool
  | .pyStr t => .ok (s == t)
  | .pyMono (.stringConstant t) => .ok (s == t)
  | _ => .error (.typeError "Cannot compare type StringConstant to this type")

/-- Embeds `DataShape.__eq__(other)` with an arbitrary operand:
another `DataShape` compares parameter tuples, any other Mono gives
`False`, and a non-Mono operand raises TypeError. -/
def DataShape_eq (ps : List Mono) : PyArg → Except PyErr Bool
  | .pyMono (.dataShape ps2 _) => pyEqList ps ps2
  | .pyMono _ => .ok false
  | _ => .error (.typeError "Cannot compare non-datashape type to datashape")

/-- Structural equality test on hash results, to decide concrete hash
inequality. -/
def exceptHBeq : Except PyErr HTree → Except PyErr HTree → Bool
  | .ok a, .ok b => HTree.beq a b
  | .error e1, .error e2 => e1 == e2
  | _, _ => false

/-- Lookup in the registry produced by importing the module. -/
def initLookup (n : String) : Except PyErr Mono :=
  match initRegistry with
  | .ok r => lookup_type r n
  | .error e => .error e

/-- The canonical rendering of the node registered under a name. -/
def lookupRenders (n : String) : Option String :=
  match initLookup n with
  | .ok m => some (Mono.str m)
  | .error _ => none

/-- The `Record` of fields `a : int32, b : float32`, in that order
(field types as coerced by the constructor). -/
def recAB : Mono :=
  .record [("a", .dataShape [.ctype "int32" 4 4] none),
           ("b", .dataShape [.ctype "float32" 4 4] none)]

/-- The same field mapping declared in the opposite order. -/
def recBA : Mono :=
  .record [("b", .dataShape [.ctype "float32" 4 4] none),
           ("a", .dataShape [.ctype "int32" 4 4] none)]

theorem exceptHBeq_refl (x : Except PyErr HTree) : exceptHBeq x x = true := by
  cases x with
  | ok a => simpa [exceptHBeq] using HTree.beq_refl a
  | error e => simp [exceptHBeq]

theorem exceptHBeq_ne {a b : Except PyErr HTree} (h : exceptHBeq a b = false) : a ≠ b := by
  intro he
  subst he
  rw [exceptHBeq_refl] at h
  cases h

/-! ## Claims -/

/-- Claim C1: the claim states that `sigform()` on a `DataShape` with
two `Fixed` dimensions and a measure succeeds and returns fresh
`TypeVar` dimensions named `i0`, `i1` with the measure unchanged.
The code cannot do this: `sigform` builds `TypeVar('i0')`, whose
constructor rejects any symbol that does not begin with an uppercase
letter, so the call raises ValueError.  This theorem evaluates the
embedded code at the failing input, exhibiting the contradiction
between `sigform`'s own docstring (and the spec) and its body. -/
theorem claim_C1_sigform_raises :
    Mono.sigform (.dataShape [.fixed 2, .fixed 3, .ctype "int32" 4 4] none) =
      .error (.valueError "TypeVar symbol \x27i0\x27 does not begin with a capital") := rfl

/-- Claim C2, counterexample: registering through a named `DataShape`
does silently overwrite.  With `"foo"` registered to the `int32`
scalar, constructing `DataShape(int32, name="foo")` succeeds, writes
the new node over the old binding, and the lookup now returns the
new DataShape, not the original CType. -/
theorem claim_C2_counterexample :
    DataShape_init [.ctype "int32" 4 4] (some "foo") [("foo", .ctype "int32" 4 4)] =
      .ok (.dataShape [.ctype "int32" 4 4] (some "foo"),
        [("foo", .ctype "int32" 4 4),
         ("foo", .dataShape [.ctype "int32" 4 4] (some "foo"))]) ∧
    dictGet [("foo", .ctype "int32" 4 4),
             ("foo", .dataShape [.ctype "int32" 4 4] (some "foo"))] "foo" =
      some (.dataShape [.ctype "int32" 4 4] (some "foo")) ∧
    Mono.ctype "int32" 4 4 ≠ Mono.dataShape [.ctype "int32" 4 4] (some "foo") :=
  ⟨rfl, rfl, fun h => Mono.noConfusion h⟩

/-- A binding appended to the registry wins the lookup of its name. -/
theorem dictGet_append_single (reg : Registry) (n : String) (v : Mono) :
    dictGet (reg ++ [(n, v)]) n = some v := by
  induction reg with
  | nil => simp [dictGet]
  | cons hd tl ih =>
    obtain ⟨k2, v2⟩ := hd
    simp only [List.cons_append, dictGet, List.append_eq, ih]

/-- Claim C2 (amended): `Type.register` on an already-present name
always fails with a TypeError and produces no new registry, so the
existing entry stays; but constructing a named `DataShape` bypasses
`register` with a direct dict write, so it always succeeds and its
name thereafter resolves to the new node — named `DataShape`
construction does silently overwrite. -/
theorem claim_C2_amended :
    (∀ (reg : Registry) (n : String) (t : Mono), (dictGet reg n).isSome →
      Type_register reg n t =
        .error (.typeError ("There is another type registered with name " ++ n))) ∧
    (∀ (reg : Registry) (ps : List Mono) (n : String),
      dsParamsCheck ps = .ok () → n ≠ "" →
      DataShape_init ps (some n) reg =
        .ok (.dataShape ps (some n), reg ++ [(n, .dataShape ps (some n))]) ∧
      dictGet (reg ++ [(n, .dataShape ps (some n))]) n = some (.dataShape ps (some n))) := by
  constructor
  · intro reg n t h
    simp [Type_register, h]
  · intro reg ps n hck hne
    refine ⟨?_, dictGet_append_single reg n _⟩
    simp [DataShape_init, hck, hne]

/-- Claim C2, witness: the amended claim at concrete inputs. -/
theorem claim_C2_witness :
    (dictGet [("foo", Mono.ctype "int32" 4 4)] "foo").isSome = true ∧
    Type_register [("foo", Mono.ctype "int32" 4 4)] "foo" .bytes =
      .error (.typeError ("There is another type registered with name " ++ "foo")) ∧
    DataShape_init [.bytes] (some "b2") [] =
      .ok (.dataShape [.bytes] (some "b2"), [("b2", .dataShape [.bytes] (some "b2"))]) :=
  ⟨rfl, claim_C2_amended.1 _ _ .bytes (by simp [dictGet]),
    (claim_C2_amended.2 [] [.bytes] "b2" rfl (by simp)).1⟩

/-- Claim C3, counterexample: a `DataShape` built from a single
measure parameter succeeds (the guard is `len(parameters) > 0`, not
`>= 2`), producing a one-element wrapper; the claim says it must
fail with a value error. -/
theorem claim_C3_counterexample :
    dshapeOf [.ctype "int32" 4 4] = .ok (.dataShape [.ctype "int32" 4 4] none) := rfl

/-- Claim C3 (amended): only construction with zero parameters fails
with a value error; `DataShape(m)` for a single measure `m` succeeds
and yields the one-element wrapper (the module itself relies on
this, e.g. `typeof` returns `DataShape(int32)`). -/
theorem claim_C3_amended :
    dshapeOf [] =
      .error (.valueError
        "the data shape should be constructed from 2 or more parameters, only got 0") ∧
    (∀ m : Mono, getattrCls m .measure = .measure →
      dshapeOf [m] = .ok (.dataShape [m] none)) := by
  refine ⟨rfl, ?_⟩
  intro m hm
  simp [dshapeOf, dsParamsCheck, hm]

/-- Claim C3, witness: the amended claim at the `int32` measure. -/
theorem claim_C3_witness :
    getattrCls (Mono.ctype "int32" 4 4) .measure = .measure ∧
    dshapeOf [Mono.ctype "int32" 4 4] = .ok (.dataShape [.ctype "int32" 4 4] none) :=
  ⟨rfl, claim_C3_amended.2 _ rfl⟩

/-- Claim C4, counterexample: two `Record`s with identical field
mappings in different declaration orders compare `==`-equal (the
dict comparison ignores order), yet their hashes are computed from
their own ordered field tuples, which differ, so the hashes are not
equal; their rendered strings preserve each declared order. -/
theorem claim_C4_counterexample :
    Record_init [("a", .ctype "int32" 4 4), ("b", .ctype "float32" 4 4)] = .ok recAB ∧
    Record_init [("b", .ctype "float32" 4 4), ("a", .ctype "int32" 4 4)] = .ok recBA ∧
    pyEq recAB recBA = .ok true ∧
    pyHash recAB ≠ pyHash recBA ∧
    Mono.str recAB = "\x7b a : int32, b : float32 \x7d" ∧
    Mono.str recBA = "\x7b b : float32, a : int32 \x7d" := by
  refine ⟨rfl, rfl, ?_, exceptHBeq_ne rfl, rfl, rfl⟩
  simp [recAB, recBA, pyEq, pyEqDict, keyCount, dedupKeysAux, dictGet, pyEqList]

/-- Claim C4 (amended): equality implies equal hash input for every
pair of Mono nodes containing no `Record`; `Record` breaks the
implication, because its `__eq__` compares the field dict
(order-insensitive) while its `__hash__` hashes the ordered field
tuple: the two records below compare equal, hash differently, and
render in their own declared orders. -/
theorem claim_C4_amended :
    (∀ x y : Mono, recordFree x = true → recordFree y = true →
      pyEq x y = .ok true → pyHash x = pyHash y) ∧
    pyEq recAB recBA = .ok true ∧
    pyHash recAB ≠ pyHash recBA ∧
    Mono.str recAB = "\x7b a : int32, b : float32 \x7d" ∧
    Mono.str recBA = "\x7b b : float32, a : int32 \x7d" := by
  refine ⟨pyEq_hash_congr, ?_, exceptHBeq_ne rfl, rfl, rfl⟩
  simp [recAB, recBA, pyEq, pyEqDict, keyCount, dedupKeysAux, dictGet, pyEqList]

/-- Claim C4, witness: the record-free implication applied to a
concrete equal pair. -/
theorem claim_C4_witness :
    recordFree (Mono.string (some 5) "U8") = true ∧
    pyEq (Mono.string (some 5) "U8") (.string (some 5) "U8") = .ok true ∧
    pyHash (Mono.string (some 5) "U8") = pyHash (.string (some 5) "U8") :=
  ⟨rfl, pyEq_refl _, claim_C4_amended.1 _ _ rfl rfl (pyEq_refl _)⟩

/-- Claim C5, counterexample: passing the encoding through the
second (`encoding=`) argument with no fixlen matches none of the
constructor's four branches, so `String(encoding="ascii")` raises
ValueError instead of succeeding with encoding `"A"`. -/
theorem claim_C5_counterexample :
    String_init .pyNone (.pyStr "ascii") =
      .error (.valueError "Unexpected types to String constructor") := rfl

/-- Claim C5 (amended): `String()` renders as `string`; `String(10)`
renders as `string[10]`; the ascii encoding canonicalizes to `"A"`
when passed positionally as the first argument, `String("ascii")`,
while `String(encoding="ascii")` raises; an encoding missing from
the alias table fails with a ValueError. -/
theorem claim_C5_amended :
    String_init .pyNone .pyNone = .ok (.string none "U8") ∧
    Mono.str (.string none "U8") = "string" ∧
    String_init (.pyInt 10) .pyNone = .ok (.string (some 10) "U8") ∧
    Mono.str (.string (some 10) "U8") = "string[10]" ∧
    String_init (.pyStr "ascii") .pyNone = .ok (.string none "A") ∧
    String_init .pyNone (.pyStr "ascii") =
      .error (.valueError "Unexpected types to String constructor") ∧
    (∀ e : String, canonEnc e = none →
      String_init (.pyStr e) .pyNone =
        .error (.valueError ("Unsupported string encoding \x27" ++ e ++ "\x27"))) := by
  refine ⟨rfl, rfl, rfl, rfl, rfl, rfl, ?_⟩
  intro e he
  simp [String_init, strArgInt, strArgStr, he]

/-- Claim C5, witness: the unknown-encoding case at `"latin1"`. -/
theorem claim_C5_witness :
    canonEnc "latin1" = none ∧
    String_init (.pyStr "latin1") .pyNone =
      .error (.valueError ("Unsupported string encoding \x27" ++ "latin1" ++ "\x27")) :=
  ⟨rfl, claim_C5_amended.2.2.2.2.2.2 "latin1" rfl⟩

/-- Claim C6, counterexample: an `Ellipsis` in the terminal position
is accepted, because `Ellipsis` has no `cls` attribute and the check
`getattr(p, 'cls', MEASURE) == MEASURE` passes by default — the
claim says such a construction must always fail with a type error. -/
theorem claim_C6_counterexample :
    dshapeOf [.fixed 3, .ellipsis none] =
      .ok (.dataShape [.fixed 3, .ellipsis none] none) := rfl

/-- Claim C6 (amended): the position checks apply to the `cls`
attribute seen through getattr defaults: any terminal parameter not
classifying as MEASURE fails with a type error, and any earlier
parameter not classifying as DIMENSION fails with a type error —
this rejects `Fixed`/`Var` measures and `CType`/`String`/`Record`
dimensions, but nodes without a `cls` attribute (such as `Ellipsis`
or `TypeVar`) classify as whatever the position's default is and are
accepted in both positions. -/
theorem claim_C6_amended :
    (∀ (ps : List Mono) (m : Mono), getattrCls m .measure ≠ .measure →
      dshapeOf (ps ++ [m]) =
        .error (.typeError "Only a measure can appear on the last position of a datashape")) ∧
    (∀ (ps : List Mono) (d m : Mono), getattrCls m .measure = .measure →
      d ∈ ps → getattrCls d .dimension ≠ .dimension →
      dshapeOf (ps ++ [m]) =
        .error (.typeError "Only dimensions can appear before the last position of a datashape")) ∧
    getattrCls (.ellipsis none) .measure = .measure ∧
    getattrCls (.ellipsis none) .dimension = .dimension := by
  refine ⟨?_, ?_, rfl, rfl⟩
  · intro ps m hm
    simp [dshapeOf, dsParamsCheck, List.getLast?_concat, hm]
  · intro ps d m hm hdm hd
    have hall : ps.all (fun p => getattrCls p .dimension == .dimension) = false := by
      rw [List.all_eq_false]
      exact ⟨d, hdm, by simpa using hd⟩
    simp [dshapeOf, dsParamsCheck, List.getLast?_concat, List.dropLast_concat, hm, hall]

/-- Claim C6, witness: the amended claim at concrete inputs — a
`Fixed` measure position and a `String` dimension position both
fail. -/
theorem claim_C6_witness :
    getattrCls (Mono.fixed 2) .measure ≠ .measure ∧
    dshapeOf [Mono.fixed 2] =
      .error (.typeError "Only a measure can appear on the last position of a datashape") ∧
    getattrCls (Mono.ctype "int32" 4 4) .measure = .measure ∧
    Mono.string none "U8" ∈ [Mono.string none "U8"] ∧
    getattrCls (Mono.string none "U8") .dimension ≠ .dimension ∧
    dshapeOf [Mono.string none "U8", Mono.ctype "int32" 4 4] =
      .error (.typeError "Only dimensions can appear before the last position of a datashape") :=
  ⟨by decide, claim_C6_amended.1 [] _ (by decide), rfl, List.mem_singleton_self _,
    by decide,
    claim_C6_amended.2.1 [.string none "U8"] _ _ rfl (List.mem_singleton_self _) (by decide)⟩

/-- Claim C7, counterexample: `lookup('complex64')` returns the
`complex[float32]` scalar, whose rendered string is its canonical
name `"complex[float32]"`, not the registered alias `"complex64"` —
so not every registered name renders back to itself. -/
theorem claim_C7_counterexample :
    initLookup "complex64" = .ok (.ctype "complex[float32]" 8 4) ∧
    Mono.str (.ctype "complex[float32]" 8 4) = "complex[float32]" ∧
    "complex[float32]" ≠ "complex64" :=
  ⟨rfl, rfl, by decide⟩

/-- Claim C7 (amended): every `CType` registered under its own name,
and the `bytes`/`string` measures, render back to the looked-up
name; the six alias registrations (`complex64`, `complex128`,
`float`, `double`, `intptr`, `uintptr`) resolve to the aliased node,
which renders as its canonical name instead. -/
theorem claim_C7_amended :
    lookupRenders "bool" = some "bool" ∧
    lookupRenders "char" = some "char" ∧
    lookupRenders "int8" = some "int8" ∧
    lookupRenders "int16" = some "int16" ∧
    lookupRenders "int32" = some "int32" ∧
    lookupRenders "int64" = some "int64" ∧
    lookupRenders "uint8" = some "uint8" ∧
    lookupRenders "uint16" = some "uint16" ∧
    lookupRenders "uint32" = some "uint32" ∧
    lookupRenders "uint64" = some "uint64" ∧
    lookupRenders "float16" = some "float16" ∧
    lookupRenders "float32" = some "float32" ∧
    lookupRenders "float64" = some "float64" ∧
    lookupRenders "complex[float32]" = some "complex[float32]" ∧
    lookupRenders "complex[float64]" = some "complex[float64]" ∧
    lookupRenders "void" = some "void" ∧
    lookupRenders "object" = some "object" ∧
    lookupRenders "bytes" = some "bytes" ∧
    lookupRenders "string" = some "string" ∧
    lookupRenders "complex64" = some "complex[float32]" ∧
    lookupRenders "complex128" = some "complex[float64]" ∧
    lookupRenders "float" = some "float32" ∧
    lookupRenders "double" = some "float64" ∧
    lookupRenders "intptr" = some "int64" ∧
    lookupRenders "uintptr" = some "uint64" :=
  ⟨rfl, rfl, rfl, rfl, rfl, rfl, rfl, rfl, rfl, rfl, rfl, rfl, rfl, rfl, rfl,
    rfl, rfl, rfl, rfl, rfl, rfl, rfl, rfl, rfl, rfl⟩

/-- The Boolean validity check implies the constructor check passes. -/
theorem dsParamsCheck_of_dsOk {ps : List Mono} (h : dsOk ps = true) :
    dsParamsCheck ps = .ok () := by
  unfold dsOk at h
  cases hgl : ps.getLast? with
  | none => rw [hgl] at h; cases h
  | some last =>
    rw [hgl] at h
    simp only [Bool.and_eq_true, beq_iff_eq] at h
    unfold dsParamsCheck
    rw [hgl]
    simp [h.1, h.2]

/-- Well-formed record fields are `DataShape`s already, so the
coercion is the identity. -/
theorem Record_coerce_wf {f : List (String × Mono)} (h : wfFields f = true) :
    Record_coerce f = .ok f := by
  induction f with
  | nil => rfl
  | cons hd tl ih =>
    obtain ⟨k, t⟩ := hd
    simp only [wfFields, Bool.and_eq_true] at h
    simp [Record_coerce, h.1.1, ih h.2]

/-- Claim C8, counterexample: `CType` is not reconstructable from its
own parameter tuple: `parameters` is the 1-tuple `(name,)` while the
constructor requires three arguments, so `CType(*t.parameters)`
raises a TypeError — the claim asserts reconstruction holds for
every variant including `CType`. -/
theorem claim_C8_counterexample :
    reconstruct (.ctype "int32" 4 4) =
      .error (.typeError "CType constructor requires name, itemsize and alignment arguments") := rfl

/-- Claim C8 (amended): every constructor-produced Mono except a
`CType` is reconstructable from its own ordered parameter tuple:
`variant(*t.parameters)` succeeds and the result compares
`==`-equal to the original (a named `DataShape` loses its name,
which `parameters` does not record, but still compares equal since
`DataShape.__eq__` only compares parameters). -/
theorem claim_C8_amended :
    ∀ t : Mono, wf t = true → t.isCType = false →
      reconstruct t = .ok (stripName t) ∧ pyEq t (stripName t) = .ok true := by
  intro t hwf hct
  cases t with
  | integerConstant i => exact ⟨rfl, pyEq_refl _⟩
  | stringConstant s => exact ⟨rfl, pyEq_refl _⟩
  | date => exact ⟨rfl, pyEq_refl _⟩
  | time tz => exact ⟨rfl, pyEq_refl _⟩
  | dateTime tz => exact ⟨rfl, pyEq_refl _⟩
  | units u tp =>
    simp only [wf, Bool.and_eq_true] at hwf
    exact ⟨by simp [reconstruct, Units_init, hwf.1, stripName], pyEq_refl _⟩
  | bytes => exact ⟨rfl, pyEq_refl _⟩
  | string fl e =>
    simp only [wf, beq_iff_eq] at hwf
    cases fl with
    | none =>
      exact ⟨by simp [reconstruct, String_init, strArgInt, strArgStr, hwf, stripName],
        pyEq_refl _⟩
    | some n =>
      exact ⟨by simp [reconstruct, String_init, strArgInt, strArgStr, hwf, stripName],
        pyEq_refl _⟩
  | ctype n sz al => simp [Mono.isCType] at hct
  | fixed v =>
    refine ⟨?_, pyEq_refl _⟩
    have hv : ¬ ((v : Int) < 0) := by omega
    simp [reconstruct, Fixed_init, stripName, hv]
  | var => exact ⟨rfl, pyEq_refl _⟩
  | typeVar s =>
    refine ⟨?_, pyEq_refl _⟩
    simp only [wf, headUpper] at hwf
    simp only [reconstruct, TypeVar_init, stripName]
    cases hsd : s.data with
    | nil => rw [hsd] at hwf; cases hwf
    | cons c rest =>
      rw [hsd] at hwf
      have hcu : c.isUpper = true := hwf
      simp [hcu]
  | ellipsis tv => exact ⟨rfl, pyEq_refl _⟩
  | dataShape ps nm =>
    simp only [wf, Bool.and_eq_true] at hwf
    refine ⟨?_, ?_⟩
    · simp [reconstruct, dshapeOf, dsParamsCheck_of_dsOk hwf.1.1, stripName]
    · simp [stripName, pyEq, pyEqList_refl]
  | option t =>
    simp only [wf, Bool.and_eq_true, beq_iff_eq] at hwf
    refine ⟨?_, pyEq_refl _⟩
    cases t <;> simp_all [reconstruct, Option_init, Mono.clsAttr, stripName]
  | function ps => exact ⟨rfl, pyEq_refl _⟩
  | record f =>
    simp only [wf] at hwf
    refine ⟨?_, pyEq_refl _⟩
    simp [reconstruct, Record_init, Record_coerce_wf hwf, stripName, Except.map]
  | tuple ds => exact ⟨rfl, pyEq_refl _⟩
  | json => exact ⟨rfl, pyEq_refl _⟩

/-- Claim C8, witness: reconstruction of a concrete two-parameter
`DataShape`. -/
theorem claim_C8_witness :
    wf (Mono.dataShape [.fixed 5, .string none "U8"] none) = true ∧
    (Mono.dataShape [.fixed 5, .string none "U8"] none).isCType = false ∧
    reconstruct (Mono.dataShape [.fixed 5, .string none "U8"] none) =
      .ok (.dataShape [.fixed 5, .string none "U8"] none) ∧
    pyEq (Mono.dataShape [.fixed 5, .string none "U8"] none)
      (.dataShape [.fixed 5, .string none "U8"] none) = .ok true :=
  ⟨rfl, rfl,
    (claim_C8_amended (.dataShape [.fixed 5, .string none "U8"] none) rfl rfl).1,
    (claim_C8_amended (.dataShape [.fixed 5, .string none "U8"] none) rfl rfl).2⟩

/-- Claim C9, counterexample: `free` on a Record whose single field
holds a `TypeVar` returns the empty list, not the TypeVar: the
Record's `parameters` is the 1-tuple holding the plain tuple of
field pairs, and `free` of a non-Mono returns `[]`, so nothing
under a Record (or Tuple) is ever visited. -/
theorem claim_C9_counterexample :
    Record_init [("a", .typeVar "T")] =
      .ok (.record [("a", .dataShape [.typeVar "T"] none)]) ∧
    free (.record [("a", .dataShape [.typeVar "T"] none)]) = [] :=
  ⟨rfl, rfl⟩

/-- Claim C9 (amended): `free` returns the depth-first sequence of
`TypeVar` nodes reachable through parameters that are themselves
Mono nodes (duplicates retained, parameter order); on
`TypeVar("A") * TypeVar("B") * int32` it returns exactly `[A, B]`;
but `Record` and `Tuple` store their contents inside a single plain
tuple/list parameter, so `free` returns `[]` for them regardless of
any `TypeVar`s inside, and unit nodes (including `String` and
`Units`) return `[]`. -/
theorem claim_C9_amended :
    free (.dataShape [.typeVar "A", .typeVar "B", .ctype "int32" 4 4] none) =
      [.typeVar "A", .typeVar "B"] ∧
    (∀ s, free (.typeVar s) = [.typeVar s]) ∧
    (∀ f : List (String × Mono), free (.record f) = []) ∧
    (∀ l : List Mono, free (.tuple l) = []) ∧
    (∀ fl e, free (.string fl e) = []) ∧
    (∀ u tp, free (.units u tp) = []) ∧
    (∀ ps nm, free (.dataShape ps nm) = freeList ps) :=
  ⟨rfl, fun _ => rfl, fun _ => rfl, fun _ => rfl, fun _ _ => rfl, fun _ _ => rfl,
    fun _ _ => rfl⟩

/-- Claim C10: `IntegerConstant` and `StringConstant` raise a
TypeError when compared against any operand that is neither the
corresponding raw native value nor a constant of the same wrapped
kind; `DataShape` raises against any non-Mono operand; so equality
with these variants is not total: `IntegerConstant(3) == Fixed(3)`
raises while `Fixed(3) == IntegerConstant(3)` returns `False`. -/
theorem claim_C10_asymmetric_eq :
    (∀ (i : Int) (m : Mono), m.isIntegerConstant = false →
      IntegerConstant_eq i (.pyMono m) =
        .error (.typeError "Cannot compare type IntegerConstant to this type")) ∧
    (∀ (i : Int) (s : String), IntegerConstant_eq i (.pyStr s) =
      .error (.typeError "Cannot compare type IntegerConstant to this type")) ∧
    (∀ i : Int, IntegerConstant_eq i .pyNone =
      .error (.typeError "Cannot compare type IntegerConstant to this type")) ∧
    (∀ (s : String) (m : Mono), m.isStringConstant = false →
      StringConstant_eq s (.pyMono m) =
        .error (.typeError "Cannot compare type StringConstant to this type")) ∧
    (∀ (s : String) (i : Int), StringConstant_eq s (.pyInt i) =
      .error (.typeError "Cannot compare type StringConstant to this type")) ∧
    (∀ (ps : List Mono) (i : Int), DataShape_eq ps (.pyInt i) =
      .error (.typeError "Cannot compare non-datashape type to datashape")) ∧
    (∀ (ps : List Mono) (s : String), DataShape_eq ps (.pyStr s) =
      .error (.typeError "Cannot compare non-datashape type to datashape")) ∧
    (∀ ps : List Mono, DataShape_eq ps .pyNone =
      .error (.typeError "Cannot compare non-datashape type to datashape")) ∧
    pyEq (.integerConstant 3) (.fixed 3) =
      .error (.typeError "Cannot compare type IntegerConstant to this type") ∧
    pyEq (.fixed 3) (.integerConstant 3) = .ok false := by
  refine ⟨?_, fun _ _ => rfl, fun _ => rfl, ?_, fun _ _ => rfl,
    fun _ _ => rfl, fun _ _ => rfl, fun _ => rfl, by simp [pyEq], by simp [pyEq]⟩
  · intro i m hm
    cases m <;> simp_all [IntegerConstant_eq, Mono.isIntegerConstant]
  · intro s m hm
    cases m <;> simp_all [StringConstant_eq, Mono.isStringConstant]

/-- Claim C10, witness: the raising comparisons at concrete
operands. -/
theorem claim_C10_witness :
    (Mono.fixed 3).isIntegerConstant = false ∧
    IntegerConstant_eq 3 (.pyMono (.fixed 3)) =
      .error (.typeError "Cannot compare type IntegerConstant to this type") ∧
    Mono.date.isStringConstant = false ∧
    StringConstant_eq "x" (.pyMono .date) =
      .error (.typeError "Cannot compare type StringConstant to this type") :=
  ⟨rfl, claim_C10_asymmetric_eq.1 3 _ rfl, rfl,
    claim_C10_asymmetric_eq.2.2.2.1 "x" _ rfl⟩
